import Mathlib

/-!
Shallow embedding of `src/app.py` (Negotiation Agent API), covering the
negotiation phase engine (`process_negotiation_step` and its four phase
handlers) together with the state-merging performed by the
`/start-negotiation` and `/respond` routes.

Modelling conventions:
* The session dict (`NegotiationState` TypedDict in the source) becomes a
  structure.  Every key of the TypedDict is always populated by
  `/start-negotiation`, so integer fields are plain `Int`; Python truthiness
  tests such as `if not budget` on those fields are `budget = 0`
  (`not None` never fires for the fields of a stored session).
  `agreed_price` is genuinely `Optional[int]` and becomes `Option Int`.
* `datetime.now().isoformat()` timestamps are abstracted as a `Nat` clock
  value `now` passed to each step; `created_at` / `last_activity` are `Nat`.
* Each handler returns a Python dict of updated keys.  That delta becomes
  the `StepResult` structure whose fields are `Option`-valued ("key present
  in the returned dict"); `agreed_price` is doubly optional because the
  failed branch stores an explicit `None`.  The routes copy every returned
  key except `bot_response` and `options` into the session (`applyResult`);
  note the `is_complete` key IS copied into the session dict by that loop.
* `raise ValueError(...)` in `brand_initial_offer` is modelled with
  `Except String`: the routes catch any exception and turn it into an
  HTTP 500, which is the `.error` case of `respond` / `start_negotiation`.
* Python `str.lower` / `str.title` are modelled on ASCII letters (the
  engine only matches the ASCII keywords "accept" / "yes" and the inputs of
  interest are ASCII apart from the rupee sign, which both models leave
  unchanged).  `re.search(r'₹?(\d+)')` group 1 is exactly the first
  contiguous run of decimal digits of the input (the optional rupee sign
  before the run does not change the captured group), modelled by
  `extractFirstNat` with ASCII digits.
* `int(budget * 1.15)` is IEEE-754 double-precision arithmetic followed by
  truncation toward zero.  It is modelled exactly (`pyMaxBudgetInt`):
  `1.15` rounds to the double `5179139571476070 / 2^52`, the product is
  rounded to 53 significant bits with round-to-nearest, ties-to-even, and
  the result is truncated.  The model is exact for `|budget| < 2^53`
  (conversion of larger ints to float, and float overflow for astronomically
  large budgets, are outside the range any claim exercises; the conversion
  rounding `flNat` is included anyway).
-/

/-! ### Python string primitives used by the engine -/

/-- Python `str.lower()` restricted to ASCII (the only case-folding the
engine's keyword tests rely on). -/
def pyLower (s : String) : String :=
  String.mk (s.data.map Char.toLower)

/-- Whether `needle` occurs as a contiguous sublist of `hay`:
Python's `needle in hay` on strings, on the character lists. -/
def subOccurs (needle : List Char) : List Char → Bool
  | [] => needle.isEmpty
  | c :: rest => needle.isPrefixOf (c :: rest) || subOccurs needle rest

/-- Python `needle in hay` for strings. -/
def pyContains (hay needle : String) : Bool :=
  subOccurs needle.data hay.data

/-- The acceptance test the source repeats inline in
`handle_influencer_response` and `handle_final_decision`:
`"accept" in user_input.lower() or "yes" in user_input.lower()`. -/
def acceptsInput (user_input : String) : Bool :=
  pyContains (pyLower user_input) "accept" || pyContains (pyLower user_input) "yes"

/-- The campaign-question test of `handle_influencer_response`:
`any(word in user_input.lower() for word in ["campaign","what","about","details","?"])`. -/
def detailsRequested (user_input : String) : Bool :=
  ["campaign", "what", "about", "details", "?"].any
    (fun w => pyContains (pyLower user_input) w)

/-- Python `s.replace(old, new)` for single-character `old`/`new`
(the source only replaces `"_"` with `" "`). -/
def replaceChar (s : String) (a b : Char) : String :=
  String.mk (s.data.map (fun c => if c == a then b else c))

/-- Helper for `pyTitle`: the `Bool` records whether the previous character
was alphabetic. -/
def pyTitleAux : Bool → List Char → List Char
  | _, [] => []
  | prevAlpha, c :: rest =>
    (if c.isAlpha then (if prevAlpha then c.toLower else c.toUpper) else c)
      :: pyTitleAux c.isAlpha rest

/-- Python `str.title()` (ASCII): the first letter of each run of letters is
upper-cased, the rest lower-cased. -/
def pyTitle (s : String) : String :=
  String.mk (pyTitleAux false s.data)

/-- Insert thousands separators into a forward list of decimal digits:
a comma goes after a digit whenever a positive multiple of three digits
remains. -/
def commaGroup : List Char → List Char
  | [] => []
  | c :: rest =>
    c :: (if rest.length % 3 == 0 && rest.length != 0
          then ',' :: commaGroup rest else commaGroup rest)

/-- Python's `f"{n:,}"` format for an integer: decimal digits grouped in
threes by commas, with a leading minus sign for negatives. -/
def fmtComma (n : Int) : String :=
  (if n < 0 then "-" else "") ++ String.mk (commaGroup (toString n.natAbs).data)

/-- Parse a list of decimal digit characters as a base-10 natural number
(Python `int(...)` applied to the captured digit group). -/
def parseDigits (ds : List Char) : Nat :=
  ds.foldl (fun a c => 10 * a + (c.toNat - 48)) 0

/-- The value of `re.search(r'₹?(\d+)', s)` group 1: the first contiguous
left-to-right run of decimal digits, if any.  (The optional rupee glyph may
precede the run but is not captured and does not change where the first
digit run starts.) -/
def extractFirstNat (s : String) : Option Nat :=
  match s.data.dropWhile (fun c => !c.isDigit) with
  | [] => none
  | c :: rest => some (parseDigits ((c :: rest).takeWhile Char.isDigit))

/-! ### Exact model of `int(budget * 1.15)` in IEEE-754 binary64 -/

/-- Bit length of a natural number, with explicit fuel so that the kernel
can evaluate it (1100 bits of fuel covers every value a Python float can
represent). -/
def bitLenAux : Nat → Nat → Nat
  | 0, _ => 0
  | fuel + 1, n => if n = 0 then 0 else bitLenAux fuel (n / 2) + 1

/-- Bit length of a natural number (`0` has bit length `0`). -/
def bitLen (n : Nat) : Nat := bitLenAux 1100 n

/-- Round the rational `num / den` (with `den ≠ 0`) to the nearest natural
number, ties to even: the rounding IEEE-754 applies to significands. -/
def rndNE (num den : Nat) : Nat :=
  let q := num / den
  let r := num % den
  if 2 * r < den then q
  else if den < 2 * r then q + 1
  else if q % 2 = 0 then q else q + 1

/-- The nearest binary64 double to the natural number `n` (every double of
this magnitude is an integer, so the result is again a `Nat`).  Exact for
`n < 2 ^ 53`. -/
def flNat (n : Nat) : Nat :=
  let L := bitLen n
  if L ≤ 53 then n
  else rndNE n (2 ^ (L - 53)) * 2 ^ (L - 53)

/-- The 53-bit significand of the double nearest to `1.15 = 23 / 20`:
the double is `fl115Man / 2 ^ 52`. -/
def fl115Man : Nat := rndNE (23 * 2 ^ 52) 20

/-- Python `int(n * 1.15)` for a natural `n`: convert `n` to double,
multiply by the double `1.15` rounding to nearest (ties to even), then
truncate toward zero. -/
def pyMaxBudget (n : Nat) : Nat :=
  let p := flNat n * fl115Man
  let L := bitLen p
  if L ≤ 53 then p / 2 ^ 52
  else
    let s := L - 53
    let m := rndNE p (2 ^ s)
    if 52 ≤ s then m * 2 ^ (s - 52) else m / 2 ^ (52 - s)

/-- Python `int(budget * 1.15)` for an arbitrary integer budget.  Double
multiplication and `int()` truncation are both symmetric under negation. -/
def pyMaxBudgetInt (b : Int) : Int :=
  if 0 ≤ b then (pyMaxBudget b.toNat : Int) else -(pyMaxBudget (-b).toNat : Int)

/-! ### The session state and the step deltas -/

/-- The `NegotiationState` TypedDict of the source (one session).
`agreed_price` mirrors `Optional[int]`; `created_at` / `last_activity` are
abstract clock values; `is_complete` is the extra key the routes' merge loop
copies into the session dict (absent, i.e. `false`, at session start). -/
structure NegotiationState where
  messages : List String
  budget : Int
  campaign_type : String
  duration : String
  brand_offer : Int
  influencer_offer : Int
  agreed_price : Option Int
  negotiation_phase : String
  negotiation_rounds : Nat
  user_input : String
  session_id : String
  created_at : Nat
  last_activity : Nat
  is_complete : Bool
  deriving Repr, DecidableEq

/-- The dict returned by one phase handler: each field is `some _` exactly
when the handler's returned dict contains that key.  `agreed_price` is
`Option (Option Int)` because `handle_final_decision` stores an explicit
`None` on failure. -/
structure StepResult where
  messages : Option (List String) := none
  brand_offer : Option Int := none
  influencer_offer : Option Int := none
  agreed_price : Option (Option Int) := none
  negotiation_phase : Option String := none
  negotiation_rounds : Option Nat := none
  bot_response : Option String := none
  options : Option (List String) := none
  is_complete : Option Bool := none
  last_activity : Option Nat := none
  deriving Repr, DecidableEq

/-- The merge loop of `/start-negotiation`, `/respond` and
`/respond-stream`: every key of the handler's result except `bot_response`
and `options` is copied into the session state. -/
def applyResult (s : NegotiationState) (r : StepResult) : NegotiationState :=
  { s with
    messages := r.messages.getD s.messages
    brand_offer := r.brand_offer.getD s.brand_offer
    influencer_offer := r.influencer_offer.getD s.influencer_offer
    agreed_price := r.agreed_price.getD s.agreed_price
    negotiation_phase := r.negotiation_phase.getD s.negotiation_phase
    negotiation_rounds := r.negotiation_rounds.getD s.negotiation_rounds
    is_complete := r.is_complete.getD s.is_complete
    last_activity := r.last_activity.getD s.last_activity }

/-! ### The four phase handlers -/

/-- `brand_initial_offer`: the brand's opening message.  `if not budget:
raise ValueError("Missing budget in state")` is the `.error` case. -/
def brand_initial_offer (s : NegotiationState) (now : Nat) :
    Except String StepResult :=
  if s.budget = 0 then .error "Missing budget in state"
  else
    let campaign_display := pyTitle (replaceChar s.campaign_type '_' ' ')
    let duration_display := pyTitle (replaceChar s.duration '_' ' ')
    .ok
      { messages := some ["Brand offers ₹" ++ fmtComma s.budget ++ " for " ++
          campaign_display ++ " campaign (" ++ duration_display ++ ")"]
        brand_offer := some s.budget
        negotiation_phase := some "waiting_for_influencer_response"
        negotiation_rounds := some (s.negotiation_rounds + 1)
        bot_response := some ("🏢 Brand: Hello! We're excited to work with you on our " ++
          campaign_display ++ " campaign.\n🏢 Brand: This is a " ++ duration_display ++
          " campaign, and our budget is ₹" ++ fmtComma s.budget ++
          ".\n🏢 Brand: What are your thoughts on this collaboration?")
        options := some ["Accept the offer", "Counter with your price",
          "Ask about campaign details"]
        last_activity := some now }

/-- `handle_influencer_response`: acceptance keyword first, then a numeric
counter-offer, then campaign questions, then a clarification request. -/
def handle_influencer_response (s : NegotiationState) (now : Nat) : StepResult :=
  if acceptsInput s.user_input then
    { messages := some ["Influencer accepts ₹" ++ fmtComma s.brand_offer]
      agreed_price := some (some s.brand_offer)
      negotiation_phase := some "completed"
      negotiation_rounds := some (s.negotiation_rounds + 1)
      bot_response := some ("🎭 Influencer: I accept your offer of ₹" ++
        fmtComma s.brand_offer ++ "!\n🏢 Brand: Excellent! We have a deal!")
      is_complete := some true
      last_activity := some now }
  else
    match extractFirstNat s.user_input with
    | some counter_offer =>
      { messages := some ["Influencer counters with ₹" ++ fmtComma (counter_offer : Int)]
        influencer_offer := some (counter_offer : Int)
        negotiation_phase := some "brand_considering"
        negotiation_rounds := some (s.negotiation_rounds + 1)
        bot_response := some ("🎭 Influencer: I was thinking more along the lines of ₹" ++
          fmtComma (counter_offer : Int) ++ ".\n🏢 Brand: Let me consider your offer...")
        last_activity := some now }
    | none =>
      if detailsRequested s.user_input then
        let campaign_type := replaceChar s.campaign_type '_' ' '
        let duration := replaceChar s.duration '_' ' '
        { messages := some ["Brand explains campaign details"]
          negotiation_phase := some "waiting_for_decision"
          negotiation_rounds := some (s.negotiation_rounds + 1)
          bot_response := some ("🏢 Brand: This is a " ++ campaign_type ++
            " campaign for our new product launch.\n🏢 Brand: Duration: " ++ duration ++
            ", with authentic content in your style.\n🏢 Brand: We need 3-5 posts showcasing our product naturally.\n🏢 Brand: So, what do you think about our offer of ₹" ++
            fmtComma s.brand_offer ++ "?")
          options := some ["Accept ₹" ++ fmtComma s.brand_offer, "Make counter-offer",
            "Need more details"]
          last_activity := some now }
      else
        { messages := some ["Brand asks for clarification"]
          negotiation_phase := some "waiting_for_decision"
          negotiation_rounds := some (s.negotiation_rounds + 1)
          bot_response := some ("🏢 Brand: I'd like to understand your position better. Are you interested in accepting ₹" ++
            fmtComma s.brand_offer ++ ", or do you have a different rate in mind?")
          options := some ["Accept ₹" ++ fmtComma s.brand_offer, "Make counter-offer"]
          last_activity := some now }

/-- `brand_considers_counter`: `if not influencer_offer or not budget`
degrades to the error phase (returning only that key); otherwise the offer
is compared with the budget and with `max_budget = int(budget * 1.15)`. -/
def brand_considers_counter (s : NegotiationState) (now : Nat) : StepResult :=
  if s.influencer_offer = 0 ∨ s.budget = 0 then
    { negotiation_phase := some "error" }
  else
    let max_budget := pyMaxBudgetInt s.budget
    if s.influencer_offer ≤ s.budget then
      { messages := some ["Brand accepts ₹" ++ fmtComma s.influencer_offer]
        agreed_price := some (some s.influencer_offer)
        negotiation_phase := some "completed"
        negotiation_rounds := some (s.negotiation_rounds + 1)
        bot_response := some ("🏢 Brand: ₹" ++ fmtComma s.influencer_offer ++
          " works perfectly for us! Let's proceed with the collaboration.")
        is_complete := some true
        last_activity := some now }
    else if s.influencer_offer ≤ max_budget then
      { messages := some ["Brand accepts ₹" ++ fmtComma s.influencer_offer]
        agreed_price := some (some s.influencer_offer)
        negotiation_phase := some "completed"
        negotiation_rounds := some (s.negotiation_rounds + 1)
        bot_response := some ("🏢 Brand: ₹" ++ fmtComma s.influencer_offer ++
          " is a bit higher than our initial budget, but we really like your content. We can agree to ₹" ++
          fmtComma s.influencer_offer ++ "!")
        is_complete := some true
        last_activity := some now }
    else
      { messages := some ["Brand's final offer: ₹" ++ fmtComma max_budget]
        brand_offer := some max_budget
        negotiation_phase := some "final_decision"
        negotiation_rounds := some (s.negotiation_rounds + 1)
        bot_response := some ("🏢 Brand: ₹" ++ fmtComma s.influencer_offer ++
          " is beyond our current budget. The highest we can go is ₹" ++
          fmtComma max_budget ++ ". This is our final offer.")
        options := some ["Accept final offer", "Decline offer"]
        last_activity := some now }

/-- `handle_final_decision`: accept keywords close the deal at the brand's
final offer, anything else fails the negotiation with an explicit
`agreed_price = None`. -/
def handle_final_decision (s : NegotiationState) (now : Nat) : StepResult :=
  if acceptsInput s.user_input then
    { messages := some ["Influencer accepts final offer of ₹" ++ fmtComma s.brand_offer]
      agreed_price := some (some s.brand_offer)
      negotiation_phase := some "completed"
      negotiation_rounds := some (s.negotiation_rounds + 1)
      bot_response := some ("🎭 Influencer: Yes, I'll accept ₹" ++ fmtComma s.brand_offer ++
        "!\n🏢 Brand: Excellent! We have a deal at ₹" ++ fmtComma s.brand_offer ++ "!")
      is_complete := some true
      last_activity := some now }
  else
    { messages := some ["Negotiation failed - no agreement reached"]
      agreed_price := some none
      negotiation_phase := some "failed"
      negotiation_rounds := some (s.negotiation_rounds + 1)
      bot_response := some ("🎭 Influencer: I appreciate the offer, but I can't accept ₹" ++
        fmtComma s.brand_offer ++
        ".\n🏢 Brand: We understand. Unfortunately, we can't go higher. Thanks for considering!")
      is_complete := some true
      last_activity := some now }

/-- `determine_next_step` (dead code in the source, kept for fidelity). -/
def determine_next_step (s : NegotiationState) : String :=
  if s.negotiation_phase = "waiting_for_influencer_response" ∨
      s.negotiation_phase = "waiting_for_decision" then "handle_response"
  else if s.negotiation_phase = "brand_considering" then "brand_considers"
  else if s.negotiation_phase = "final_decision" then "final_choice"
  else "handle_response"

/-- `process_negotiation_step`: dispatch on the current phase.  Any phase
outside the four handled ones (including the terminal phases `completed`,
`failed` and `error`) falls through to the generic error delta. -/
def process_negotiation_step (s : NegotiationState) (now : Nat) :
    Except String StepResult :=
  if s.negotiation_phase = "initial" then
    brand_initial_offer s now
  else if s.negotiation_phase = "waiting_for_influencer_response" ∨
      s.negotiation_phase = "waiting_for_decision" then
    .ok (handle_influencer_response s now)
  else if s.negotiation_phase = "brand_considering" then
    .ok (brand_considers_counter s now)
  else if s.negotiation_phase = "final_decision" then
    .ok (handle_final_decision s now)
  else
    .ok { negotiation_phase := some "error"
          bot_response := some "Something went wrong. Please start over." }

/-- One engine step followed by the routes' merge loop; if the step raises
(`.error`), the session is left as it was (the routes' `except` clause
reports HTTP 500 without touching the session further). -/
def stepMerge (s : NegotiationState) (now : Nat) : NegotiationState :=
  match process_negotiation_step s now with
  | .ok r => applyResult s r
  | .error _ => s

/-- The `/respond` route: overwrite `user_input` and `last_activity` first,
then run the engine inside `try`; on success merge the delta, on an
exception leave the rest of the session untouched and surface the fault
(`.error e` stands for the HTTP 500 response). -/
def respond (s : NegotiationState) (msg : String) (now : Nat) :
    NegotiationState × Except String StepResult :=
  let s1 := { s with user_input := msg, last_activity := now }
  match process_negotiation_step s1 now with
  | .ok r => (applyResult s1 r, .ok r)
  | .error e => (s1, .error e)

/-- The `/start-negotiation` route: build the initial session dict, run one
engine step and merge; an exception surfaces as HTTP 500 (`.error`) and the
session is not stored. -/
def start_negotiation (budget : Int) (campaign_type duration session_id : String)
    (now : Nat) : Except String NegotiationState :=
  let s0 : NegotiationState :=
    { messages := []
      budget := budget
      campaign_type := campaign_type
      duration := duration
      brand_offer := 0
      influencer_offer := 0
      agreed_price := none
      negotiation_phase := "initial"
      negotiation_rounds := 0
      user_input := ""
      session_id := session_id
      created_at := now
      last_activity := now
      is_complete := false }
  match process_negotiation_step s0 now with
  | .ok r => .ok (applyResult s0 r)
  | .error e => .error e

/-- The invariant of spec §3: `agreedPrice` is non-null iff the phase is
`Completed`. -/
def agreedIffCompleted (s : NegotiationState) : Prop :=
  s.agreed_price ≠ none ↔ s.negotiation_phase = "completed"

/-- A baseline session value used to build the concrete states of the
witnesses and counterexamples. -/
def baseState : NegotiationState :=
  { messages := []
    budget := 0
    campaign_type := "social_media"
    duration := "2_weeks"
    brand_offer := 0
    influencer_offer := 0
    agreed_price := none
    negotiation_phase := "initial"
    negotiation_rounds := 0
    user_input := ""
    session_id := "sid"
    created_at := 0
    last_activity := 0
    is_complete := false }

/-! ### Helper lemmas -/

/-- Under the invariant, a session whose phase is not `completed` has a null
`agreed_price`. -/
theorem agreed_none_of_not_completed {s : NegotiationState}
    (hInv : agreedIffCompleted s) (h : s.negotiation_phase ≠ "completed") :
    s.agreed_price = none := by
  by_contra hne
  exact h (hInv.mp hne)

/-! ### C9 -/

/-- C9: `budget`, `campaign_type`, `duration` and `session_id` are set at
session start and never modified afterwards: after any `/respond` call, on
any session state whatsoever, the stored state agrees with the pre-state on
all four fields (no step delta ever contains these keys). -/
theorem c9_immutable_fields (s : NegotiationState) (msg : String) (now : Nat) :
    (respond s msg now).1.budget = s.budget ∧
    (respond s msg now).1.campaign_type = s.campaign_type ∧
    (respond s msg now).1.duration = s.duration ∧
    (respond s msg now).1.session_id = s.session_id := by
  rcases hp : process_negotiation_step
      { s with user_input := msg, last_activity := now } now with e' | r <;>
    simp [respond, hp, applyResult]

/-! ### C10 -/

/-- C10: if the engine step raises during `/respond`, the stored session
keeps every engine field (phase, rounds, offers, agreed price, messages)
unchanged, but `user_input` and `last_activity` were already overwritten
before processing began; the fault surfaces as the error result (HTTP 500),
not as an Error-phase session. -/
theorem c10_exception_state (s : NegotiationState) (msg : String)
    (now : Nat) (e : String) (h : (respond s msg now).2 = .error e) :
    (respond s msg now).1 = { s with user_input := msg, last_activity := now } := by
  rcases hp : process_negotiation_step
      { s with user_input := msg, last_activity := now } now with e' | r <;>
    simp [respond, hp] at h ⊢

/-- C10 witness: the one raising step (`initial` phase with a zero/missing
budget) really leaves the stored state at the pre-state with only
`user_input` and `last_activity` overwritten. -/
theorem c10_exception_state_witness :
    (respond baseState "hello" 5).2 = .error "Missing budget in state" ∧
    (respond baseState "hello" 5).1 =
      { baseState with user_input := "hello", last_activity := 5 } :=
  ⟨rfl, c10_exception_state baseState "hello" 5 "Missing budget in state" rfl⟩

/-! ### C5 -/

/-- C5: in the two waiting phases, any input passing the (case-insensitive)
"accept"/"yes" substring test completes the negotiation at the current
`brand_offer`, with the completion flag set, and takes precedence over
numeric extraction — no number in the message is consulted and
`influencer_offer` is untouched. -/
theorem c5_accept_precedence (s : NegotiationState) (now : Nat)
    (hphase : s.negotiation_phase = "waiting_for_influencer_response" ∨
      s.negotiation_phase = "waiting_for_decision")
    (hacc : acceptsInput s.user_input = true) :
    (stepMerge s now).agreed_price = some s.brand_offer ∧
    (stepMerge s now).negotiation_phase = "completed" ∧
    (stepMerge s now).is_complete = true ∧
    (stepMerge s now).influencer_offer = s.influencer_offer := by
  have hni : s.negotiation_phase ≠ "initial" := by
    rcases hphase with h | h <;> simp [h]
  unfold stepMerge process_negotiation_step
  rw [if_neg hni, if_pos hphase]
  unfold handle_influencer_response
  rw [hacc]
  simp [applyResult]

/-- C5 state for the opening-offer example: the session produced by
`/start-negotiation` with `budget = 50000` and the defaults. -/
def c5Start : NegotiationState :=
  { baseState with
    messages := ["Brand offers ₹50,000 for Social Media campaign (2 Weeks)"]
    budget := 50000
    brand_offer := 50000
    negotiation_phase := "waiting_for_influencer_response"
    negotiation_rounds := 1 }

/-- C5 witness: `c5Start` really is the stored state after
`/start-negotiation` with budget 50000, and answering the opening offer with
"yes please" completes at `agreed_price = 50000 = budget`. -/
theorem c5_accept_precedence_witness :
    start_negotiation 50000 "social_media" "2_weeks" "sid" 0 = .ok c5Start ∧
    acceptsInput "yes please" = true ∧
    ((stepMerge { c5Start with user_input := "yes please" } 1).agreed_price = some 50000 ∧
     (stepMerge { c5Start with user_input := "yes please" } 1).negotiation_phase = "completed" ∧
     (stepMerge { c5Start with user_input := "yes please" } 1).is_complete = true) := by
  refine ⟨rfl, by decide, ?_⟩
  have h := c5_accept_precedence { c5Start with user_input := "yes please" } 1
    (Or.inl rfl) (by decide)
  exact ⟨h.1, h.2.1, h.2.2.1⟩

/-! ### C7 -/

/-- C7: in the waiting phases, when the input fails the accept test but a
digit run is present, the first contiguous run of decimal digits is parsed
base 10 and stored as `influencer_offer`, and the phase becomes
`brand_considering`. -/
theorem c7_counter_extraction (s : NegotiationState) (now : Nat) (n : Nat)
    (hphase : s.negotiation_phase = "waiting_for_influencer_response" ∨
      s.negotiation_phase = "waiting_for_decision")
    (hacc : acceptsInput s.user_input = false)
    (hext : extractFirstNat s.user_input = some n) :
    (stepMerge s now).influencer_offer = (n : Int) ∧
    (stepMerge s now).negotiation_phase = "brand_considering" := by
  have hni : s.negotiation_phase ≠ "initial" := by
    rcases hphase with h | h <;> simp [h]
  unfold stepMerge process_negotiation_step
  rw [if_neg hni, if_pos hphase]
  unfold handle_influencer_response
  rw [hacc, hext]
  simp [applyResult]

/-- C7 witness: countering with "I want ₹60000" when `budget = 50000` stores
`influencer_offer = 60000` and moves to `brand_considering`. -/
theorem c7_counter_extraction_witness :
    acceptsInput "I want ₹60000" = false ∧
    extractFirstNat "I want ₹60000" = some 60000 ∧
    ((stepMerge { c5Start with user_input := "I want ₹60000" } 1).influencer_offer = 60000 ∧
     (stepMerge { c5Start with user_input := "I want ₹60000" } 1).negotiation_phase = "brand_considering") := by
  refine ⟨by decide, by decide, ?_⟩
  exact c7_counter_extraction { c5Start with user_input := "I want ₹60000" } 1 60000
    (Or.inl rfl) (by decide) (by decide)

/-! ### C8 -/

/-- C8: in the `final_decision` phase, input passing the accept test
completes the negotiation at `brand_offer`, and any other input ends it in
the `failed` phase with `agreed_price` explicitly cleared to null; both
branches set the completion flag (the outcome is terminal). -/
theorem c8_final_decision_outcomes (s : NegotiationState) (now : Nat)
    (hphase : s.negotiation_phase = "final_decision") :
    (acceptsInput s.user_input = true →
      (stepMerge s now).agreed_price = some s.brand_offer ∧
      (stepMerge s now).negotiation_phase = "completed" ∧
      (stepMerge s now).is_complete = true) ∧
    (acceptsInput s.user_input = false →
      (stepMerge s now).agreed_price = none ∧
      (stepMerge s now).negotiation_phase = "failed" ∧
      (stepMerge s now).is_complete = true) := by
  unfold stepMerge process_negotiation_step
  rw [hphase]
  unfold handle_final_decision
  constructor <;> intro hacc <;> rw [hacc] <;> simp [applyResult]

/-- C8 state: a session facing the brand's final offer. -/
def c8State : NegotiationState :=
  { baseState with
    budget := 50000
    brand_offer := 57499
    influencer_offer := 60000
    negotiation_phase := "final_decision"
    negotiation_rounds := 3
    user_input := "no thanks" }

/-- C8 witness: declining the final offer with "no thanks" yields the
`failed` phase with a null `agreed_price`. -/
theorem c8_final_decision_outcomes_witness :
    acceptsInput "no thanks" = false ∧
    ((stepMerge c8State 4).agreed_price = none ∧
     (stepMerge c8State 4).negotiation_phase = "failed" ∧
     (stepMerge c8State 4).is_complete = true) := by
  refine ⟨by decide, ?_⟩
  exact (c8_final_decision_outcomes c8State 4 rfl).2 (by decide)

/-! ### C1 -/

/-- The invariant of §3 is decidable, so the witnesses can evaluate it. -/
instance agreedIffCompletedDecidable (s : NegotiationState) :
    Decidable (agreedIffCompleted s) :=
  decidable_of_iff (s.agreed_price ≠ none ↔ s.negotiation_phase = "completed") Iff.rfl

/-- A session that has just completed at an agreed price of 50000. -/
def c1State : NegotiationState :=
  { baseState with negotiation_phase := "completed", agreed_price := some 50000 }

/-- C1 counterexample: a session already in the terminal `completed` phase
with `agreed_price` set satisfies the invariant, yet one further engine step
(the unrecognized-phase fallback of `process_negotiation_step`) moves the
phase to `error` while leaving `agreed_price` set, so the invariant fails
after the step. -/
theorem c1_agreed_iff_completed_cex :
    agreedIffCompleted c1State ∧
    (stepMerge c1State 7).negotiation_phase = "error" ∧
    (stepMerge c1State 7).agreed_price = some 50000 ∧
    ¬ agreedIffCompleted (stepMerge c1State 7) := by
  decide

/-- C1 (amended): the invariant `agreed_price ≠ none ↔ phase = "completed"`
is preserved by one engine step (with the routes' merge) from every session
whose phase is not already `completed`; only a further step on a completed
session breaks it. -/
theorem c1_agreed_iff_completed_preserved (s : NegotiationState) (now : Nat)
    (hInv : agreedIffCompleted s) (hnc : s.negotiation_phase ≠ "completed") :
    agreedIffCompleted (stepMerge s now) := by
  have hnone : s.agreed_price = none := agreed_none_of_not_completed hInv hnc
  unfold stepMerge process_negotiation_step
  by_cases h1 : s.negotiation_phase = "initial"
  · rw [if_pos h1]
    unfold brand_initial_offer
    by_cases hb : s.budget = 0
    · rw [if_pos hb]
      exact hInv
    · rw [if_neg hb]
      simp [agreedIffCompleted, applyResult, hnone]
  · rw [if_neg h1]
    by_cases h2 : s.negotiation_phase = "waiting_for_influencer_response" ∨
        s.negotiation_phase = "waiting_for_decision"
    · rw [if_pos h2]
      unfold handle_influencer_response
      by_cases hacc : acceptsInput s.user_input
      · rw [hacc]
        simp [agreedIffCompleted, applyResult]
      · rw [Bool.not_eq_true] at hacc
        rw [hacc]
        rcases hext : extractFirstNat s.user_input with _ | n
        · simp only [hext]
          by_cases hdet : detailsRequested s.user_input
          · rw [hdet]
            simp [agreedIffCompleted, applyResult, hnone]
          · rw [Bool.not_eq_true] at hdet
            rw [hdet]
            simp [agreedIffCompleted, applyResult, hnone]
        · simp only [hext]
          simp [agreedIffCompleted, applyResult, hnone]
    · rw [if_neg h2]
      by_cases h3 : s.negotiation_phase = "brand_considering"
      · rw [if_pos h3]
        unfold brand_considers_counter
        by_cases hz : s.influencer_offer = 0 ∨ s.budget = 0
        · rw [if_pos hz]
          simp [agreedIffCompleted, applyResult, hnone]
        · rw [if_neg hz]
          by_cases hle : s.influencer_offer ≤ s.budget
          · rw [if_pos hle]
            simp [agreedIffCompleted, applyResult]
          · rw [if_neg hle]
            by_cases hmx : s.influencer_offer ≤ pyMaxBudgetInt s.budget
            · rw [if_pos hmx]
              simp [agreedIffCompleted, applyResult]
            · rw [if_neg hmx]
              simp [agreedIffCompleted, applyResult, hnone]
      · rw [if_neg h3]
        by_cases h4 : s.negotiation_phase = "final_decision"
        · rw [if_pos h4]
          unfold handle_final_decision
          by_cases hacc : acceptsInput s.user_input
          · rw [hacc]
            simp [agreedIffCompleted, applyResult]
          · rw [Bool.not_eq_true] at hacc
            rw [hacc]
            simp [agreedIffCompleted, applyResult]
        · rw [if_neg h4]
          simp [agreedIffCompleted, applyResult, hnone]

/-- C1 witness: the invariant holds before and after accepting the opening
offer from the `waiting_for_influencer_response` phase. -/
theorem c1_agreed_iff_completed_witness :
    (agreedIffCompleted { c5Start with user_input := "yes please" } ∧
      ({ c5Start with user_input := "yes please" } :
        NegotiationState).negotiation_phase ≠ "completed") ∧
    agreedIffCompleted (stepMerge { c5Start with user_input := "yes please" } 1) :=
  ⟨⟨by decide, by decide⟩,
    c1_agreed_iff_completed_preserved { c5Start with user_input := "yes please" } 1
      (by decide) (by decide)⟩

/-! ### C2 -/

/-- A session in `brand_considering` with `budget = 50000` and
`influencer_offer = 60000` (the spec's own worked example). -/
def c2State : NegotiationState :=
  { baseState with
    negotiation_phase := "brand_considering"
    budget := 50000
    influencer_offer := 60000
    negotiation_rounds := 2 }

/-- C2 counterexample: the stretch ceiling is `int(budget * 1.15)` in
binary64 floating point, not the exact integer floor.  For
`budget = 50000` the exact floor is `50000 * 115 / 100 = 57500`, but the
double product `50000 * 1.15` rounds to just below `57500`, so the step
from `brand_considering` with `influencer_offer = 60000` offers
`brand_offer = 57499`, not `57500`. -/
theorem c2_stretch_ceiling_cex :
    (50000 * 115) / 100 = (57500 : Int) ∧
    (stepMerge c2State 7).negotiation_phase = "final_decision" ∧
    (stepMerge c2State 7).brand_offer = 57499 ∧
    (stepMerge c2State 7).brand_offer ≠ 57500 := by
  decide

/-- C2 (amended): whenever `brand_considering` is processed the stretch
ceiling is `pyMaxBudgetInt budget`, i.e. `int(budget * 1.15)` evaluated in
IEEE-754 double arithmetic and truncated toward zero; for `budget = 50000`
that ceiling is `57499` (one below the exact floor), so the worked example
with `influencer_offer = 60000` yields phase `final_decision` with
`brand_offer = 57499`. -/
theorem c2_stretch_ceiling_amended :
    pyMaxBudgetInt 50000 = 57499 ∧
    (stepMerge c2State 7).negotiation_phase = "final_decision" ∧
    (stepMerge c2State 7).brand_offer = pyMaxBudgetInt 50000 ∧
    (stepMerge c2State 7).negotiation_rounds = 3 := by
  decide

/-! ### C3 -/

/-- C3 counterexample: on a well-formed session in the `initial` phase whose
`budget` is missing/zero, the engine step raises (`ValueError`, the
`.error` result) instead of degrading to the terminal `Error` phase with an
apology message. -/
theorem c3_no_throw_cex :
    baseState.negotiation_phase = "initial" ∧
    process_negotiation_step baseState 3 = .error "Missing budget in state" := by
  exact ⟨rfl, rfl⟩

/-- C3 (amended): for sessions past the `initial` phase the step never
raises, and a missing/zero `influencer_offer` or `budget` at the point
`brand_considering` needs them produces the bare Error-phase delta
`{"negotiation_phase": "error"}` as a normal result (with no bot message in
that branch); only the `initial` phase raises on a missing/zero budget. -/
theorem c3_no_throw_amended (s : NegotiationState) (now : Nat) :
    (s.negotiation_phase ≠ "initial" →
      (process_negotiation_step s now).isOk = true) ∧
    (s.negotiation_phase = "brand_considering" →
      (s.influencer_offer = 0 ∨ s.budget = 0) →
      process_negotiation_step s now = .ok { negotiation_phase := some "error" }) := by
  constructor
  · intro hni
    unfold process_negotiation_step
    rw [if_neg hni]
    by_cases h2 : s.negotiation_phase = "waiting_for_influencer_response" ∨
        s.negotiation_phase = "waiting_for_decision"
    · rw [if_pos h2]
      rfl
    · rw [if_neg h2]
      by_cases h3 : s.negotiation_phase = "brand_considering"
      · rw [if_pos h3]
        rfl
      · rw [if_neg h3]
        by_cases h4 : s.negotiation_phase = "final_decision"
        · rw [if_pos h4]
          rfl
        · rw [if_neg h4]
          rfl
  · intro h3 hz
    have hni : s.negotiation_phase ≠ "initial" := by simp [h3]
    have h2 : ¬ (s.negotiation_phase = "waiting_for_influencer_response" ∨
        s.negotiation_phase = "waiting_for_decision") := by simp [h3]
    unfold process_negotiation_step
    rw [if_neg hni, if_neg h2, if_pos h3]
    unfold brand_considers_counter
    rw [if_pos hz]

/-- A session in `brand_considering` whose counter-offer was parsed as the
falsy value 0 (the user typed "0"). -/
def c3State : NegotiationState :=
  { baseState with
    negotiation_phase := "brand_considering"
    budget := 50000
    user_input := "0" }

/-- C3 witness: on a `brand_considering` session with a zero counter-offer
the step succeeds and returns exactly the bare Error-phase delta. -/
theorem c3_no_throw_amended_witness :
    (process_negotiation_step c3State 4).isOk = true ∧
    process_negotiation_step c3State 4 = .ok { negotiation_phase := some "error" } :=
  ⟨(c3_no_throw_amended c3State 4).1 (by decide),
    (c3_no_throw_amended c3State 4).2 rfl (Or.inl rfl)⟩

/-! ### C4 -/

/-- A `brand_considering` session whose counter-offer is the falsy value 0,
with three rounds already played and a stale activity stamp. -/
def c4State : NegotiationState :=
  { baseState with
    negotiation_phase := "brand_considering"
    budget := 50000
    negotiation_rounds := 3
    last_activity := 100 }

/-- C4 counterexample: the missing-field branch of `brand_considers_counter`
performs a transition (the phase changes to `error`) but neither increments
`negotiation_rounds` nor refreshes `last_activity` (the step ran at time 7,
yet the stamp stays 100). -/
theorem c4_rounds_increment_cex :
    (stepMerge c4State 7).negotiation_phase = "error" ∧
    (stepMerge c4State 7).negotiation_rounds = 3 ∧
    (stepMerge c4State 7).last_activity = 100 := by
  decide

/-- C4 (amended): every engine transition except the two branches that
enter the `error` phase (the missing-field branch of `brand_considering`
and the unrecognized-phase fallback) increments `rounds` by exactly 1 and
refreshes `last_activity`; hence `rounds = N + 1` after `N` client turns
holds only while no Error transition occurs. -/
theorem c4_rounds_increment_amended (s : NegotiationState) (now : Nat)
    (hok : (process_negotiation_step s now).isOk = true)
    (herr : (stepMerge s now).negotiation_phase ≠ "error") :
    (stepMerge s now).negotiation_rounds = s.negotiation_rounds + 1 ∧
    (stepMerge s now).last_activity = now := by
  unfold stepMerge process_negotiation_step at *
  by_cases h1 : s.negotiation_phase = "initial"
  · rw [if_pos h1] at *
    unfold brand_initial_offer at *
    by_cases hb : s.budget = 0
    · rw [if_pos hb] at hok
      exact absurd hok (by decide)
    · rw [if_neg hb]
      simp [applyResult]
  · rw [if_neg h1] at *
    by_cases h2 : s.negotiation_phase = "waiting_for_influencer_response" ∨
        s.negotiation_phase = "waiting_for_decision"
    · rw [if_pos h2] at *
      unfold handle_influencer_response
      by_cases hacc : acceptsInput s.user_input
      · rw [hacc]
        simp [applyResult]
      · rw [Bool.not_eq_true] at hacc
        rw [hacc]
        rcases hext : extractFirstNat s.user_input with _ | n
        · simp only [hext]
          by_cases hdet : detailsRequested s.user_input
          · rw [hdet]
            simp [applyResult]
          · rw [Bool.not_eq_true] at hdet
            rw [hdet]
            simp [applyResult]
        · simp only [hext]
          simp [applyResult]
    · rw [if_neg h2] at *
      by_cases h3 : s.negotiation_phase = "brand_considering"
      · rw [if_pos h3] at *
        unfold brand_considers_counter at *
        by_cases hz : s.influencer_offer = 0 ∨ s.budget = 0
        · rw [if_pos hz] at herr
          exact absurd (by simp [applyResult]) herr
        · rw [if_neg hz]
          by_cases hle : s.influencer_offer ≤ s.budget
          · rw [if_pos hle]
            simp [applyResult]
          · rw [if_neg hle]
            by_cases hmx : s.influencer_offer ≤ pyMaxBudgetInt s.budget
            · rw [if_pos hmx]
              simp [applyResult]
            · rw [if_neg hmx]
              simp [applyResult]
      · rw [if_neg h3] at *
        by_cases h4 : s.negotiation_phase = "final_decision"
        · rw [if_pos h4]
          unfold handle_final_decision
          by_cases hacc : acceptsInput s.user_input
          · rw [hacc]
            simp [applyResult]
          · rw [Bool.not_eq_true] at hacc
            rw [hacc]
            simp [applyResult]
        · rw [if_neg h4] at herr
          exact absurd (by simp [applyResult]) herr

/-- A `final_decision` session declining the final offer. -/
def c4WitnessState : NegotiationState :=
  { baseState with
    negotiation_phase := "final_decision"
    budget := 50000
    brand_offer := 57499
    negotiation_rounds := 3
    user_input := "ok then"
    last_activity := 100 }

/-- C4 witness: a non-error transition (declining the final offer at time 7)
really increments `rounds` from 3 to 4 and refreshes `last_activity`. -/
theorem c4_rounds_increment_witness :
    (process_negotiation_step c4WitnessState 7).isOk = true ∧
    (stepMerge c4WitnessState 7).negotiation_phase ≠ "error" ∧
    ((stepMerge c4WitnessState 7).negotiation_rounds = 3 + 1 ∧
     (stepMerge c4WitnessState 7).last_activity = 7) :=
  ⟨by decide, by decide, c4_rounds_increment_amended c4WitnessState 7 (by decide) (by decide)⟩

/-! ### C6 -/

/-- A `brand_considering` session whose counter-offer parsed to the falsy
value 0 (yet `0 ≤ budget`). -/
def c6ZeroState : NegotiationState :=
  { baseState with
    negotiation_phase := "brand_considering"
    budget := 50000 }

/-- A `brand_considering` session whose counter-offer is exactly the exact
integer floor `floor(50000 * 1.15) = 57500`. -/
def c6EdgeState : NegotiationState :=
  { baseState with
    negotiation_phase := "brand_considering"
    budget := 50000
    influencer_offer := 57500 }

/-- C6 counterexample, refuting both halves of the claim as stated: with
`influencer_offer = 0 ≤ budget` the step enters the `error` phase instead of
completing, and with `budget < influencer_offer = 57500 = floor(budget*1.15)`
(within the claimed exact-floor stretch range) the step moves to
`final_decision` instead of completing, because the code's float ceiling is
57499. -/
theorem c6_brand_considering_cex :
    (c6ZeroState.influencer_offer ≤ c6ZeroState.budget ∧
      (stepMerge c6ZeroState 7).negotiation_phase = "error" ∧
      (stepMerge c6ZeroState 7).agreed_price = none) ∧
    (c6EdgeState.budget < c6EdgeState.influencer_offer ∧
      c6EdgeState.influencer_offer ≤ (50000 * 115) / 100 ∧
      (stepMerge c6EdgeState 7).negotiation_phase = "final_decision" ∧
      (stepMerge c6EdgeState 7).agreed_price = none) := by
  decide

/-- C6 (amended): in `brand_considering`, provided both `influencer_offer`
and `budget` are non-zero (non-falsy), an offer at or under the budget is
accepted as `agreed_price` with phase `completed`; likewise an offer over
the budget but at or under the float ceiling `int(budget * 1.15)`
(`pyMaxBudgetInt`, which is 57499 rather than 57500 for budget 50000). -/
theorem c6_brand_considering_accepts (s : NegotiationState) (now : Nat)
    (hphase : s.negotiation_phase = "brand_considering")
    (hoff : s.influencer_offer ≠ 0) (hbud : s.budget ≠ 0) :
    (s.influencer_offer ≤ s.budget →
      (stepMerge s now).agreed_price = some s.influencer_offer ∧
      (stepMerge s now).negotiation_phase = "completed" ∧
      (stepMerge s now).is_complete = true) ∧
    (s.budget < s.influencer_offer → s.influencer_offer ≤ pyMaxBudgetInt s.budget →
      (stepMerge s now).agreed_price = some s.influencer_offer ∧
      (stepMerge s now).negotiation_phase = "completed" ∧
      (stepMerge s now).is_complete = true) := by
  have hni : s.negotiation_phase ≠ "initial" := by simp [hphase]
  have h2 : ¬ (s.negotiation_phase = "waiting_for_influencer_response" ∨
      s.negotiation_phase = "waiting_for_decision") := by simp [hphase]
  have hz : ¬ (s.influencer_offer = 0 ∨ s.budget = 0) := by
    simp [hoff, hbud]
  unfold stepMerge process_negotiation_step
  rw [if_neg hni, if_neg h2, if_pos hphase]
  unfold brand_considers_counter
  rw [if_neg hz]
  constructor
  · intro hle
    rw [if_pos hle]
    simp [applyResult]
  · intro hgt hmx
    rw [if_neg (not_le.mpr hgt), if_pos hmx]
    simp [applyResult]

/-- The spec's second worked example: budget 50000, counter-offer 55000. -/
def c6WitnessState : NegotiationState :=
  { baseState with
    negotiation_phase := "brand_considering"
    budget := 50000
    influencer_offer := 55000 }

/-- C6 witness: with budget 50000 and counter-offer 55000 (over budget but
under the stretch ceiling) the step completes with `agreed_price = 55000`. -/
theorem c6_brand_considering_accepts_witness :
    ((50000 : Int) < 55000 ∧ (55000 : Int) ≤ pyMaxBudgetInt 50000) ∧
    ((stepMerge c6WitnessState 7).agreed_price = some 55000 ∧
     (stepMerge c6WitnessState 7).negotiation_phase = "completed" ∧
     (stepMerge c6WitnessState 7).is_complete = true) :=
  ⟨⟨by decide, by decide⟩,
    (c6_brand_considering_accepts c6WitnessState 7 rfl (by decide) (by decide)).2
      (by decide) (by decide)⟩
